import Mathlib

/-!
Verification of the ClickUp MCP adapter (`src/index.ts`, current revision).

The adapter is request/response plumbing over the ClickUp REST API: an HTTP
client wrapper (`api`), pure response-shaping projections, a hierarchy
aggregator, and per-tool handlers (`search`, `task`, `update`, ...).

Shallow embedding conventions:
- JavaScript values that flow into serialized output are modelled by the
  inductive `Json` below; a JS object field holding `undefined` is dropped by
  `JSON.stringify`, which we model by omitting the key from the field list.
- Machine `fetch` is modelled by an oracle `HttpRequest → HttpResponse`; the
  response record carries both the raw body text (read by `res.text()`) and
  the parsed body (read by `res.json()`) — parsing itself is the JS runtime's
  job and is not re-modelled.
- Tool handlers that consume typed upstream payloads (the TS code casts the
  parsed JSON to interfaces such as `{ spaces: Space[] }`) take typed fetch
  oracles returning `Except UpstreamError T`; a rejected upstream promise is
  the `.error` case.
- JS truthiness on the values that occur here: a number is falsy exactly when
  it is 0 (z.number() rejects NaN), a string is falsy exactly when it is
  empty, `undefined`/`null` are falsy (both modelled as `Option.none`).
- `Promise.all` is a join: it resolves when all branches resolve and rejects
  as soon as any branch rejects. Sequential `Except` propagation models the
  observable result (success value, and failure as such); which of several
  simultaneous rejections surfaces is timing-dependent upstream and is not
  claimed by the spec.
-/

namespace ClickUp

/-- JSON values as transmitted on the wire (`JSON.stringify` output). Numbers
are modelled as integers: every numeric value this adapter transmits is an id,
a priority, or an epoch-milliseconds timestamp. -/
inductive Json where
  | null : Json
  | bool : Bool → Json
  | num : Int → Json
  | str : String → Json
  | arr : List Json → Json
  | obj : List (String × Json) → Json

/-- First-match key lookup in a JSON object's field list (the shaped objects
built by this adapter never contain duplicate keys). -/
def lookupKey (k : String) : List (String × Json) → Option Json
  | [] => none
  | (k', v) :: rest => if k = k' then some v else lookupKey k rest

/-- Field access on a JSON value: `some v` when the value is an object with
the key present, `none` otherwise (absent field). -/
def Json.lookup (k : String) : Json → Option Json
  | .obj fields => lookupKey k fields
  | _ => none

/-- The structured failure raised by the HTTP client wrapper on a
non-successful status: `throw new Error(res.status + ": " + await res.text())`
carries the numeric status and the raw response body text. -/
structure UpstreamError where
  status : Nat
  text : String

/-- One upstream HTTP request as issued by `api`: method, path (including any
query string), and the optional JSON-serialized body. -/
structure HttpRequest where
  method : String
  path : String
  body : Option Json

/-- One upstream HTTP response. `bodyText` is what `res.text()` yields,
`bodyJson` what `res.json()` yields. -/
structure HttpResponse where
  status : Nat
  bodyText : String
  bodyJson : Json

/--
The HTTP client wrapper (`async function api(method, path, body?)` at
src/index.ts:261-269), with `fetch` abstracted as an oracle:

  if (!res.ok) throw new Error(res.status + ": " + await res.text());
  return res.status === 204 ? {} : res.json();

`res.ok` is true exactly when 200 ≤ status ≤ 299 (WHATWG fetch spec).
-/
def api (oracle : HttpRequest → HttpResponse) (method path : String)
    (body : Option Json) : Except UpstreamError Json :=
  let res := oracle ⟨method, path, body⟩
  if ¬ (200 ≤ res.status ∧ res.status ≤ 299) then
    .error ⟨res.status, res.bodyText⟩
  else if res.status = 204 then
    .ok (Json.obj [])
  else
    .ok res.bodyJson

/-- Failures a tool handler can surface: the missing-team configuration check
(`throw new Error("team required ...")`) or a propagated upstream failure. -/
inductive ToolError where
  | config : String → ToolError
  | upstream : UpstreamError → ToolError

/-- The exact message of the missing-team configuration failure. -/
def teamRequiredMsg : String := "team required (or set CLICKUP_TEAM_ID)"

/-- JS `a || b` on optional strings: the left value wins when it is truthy
(present and non-empty), otherwise the right value is used. -/
def jsOrElse (a b : Option String) : Option String :=
  match a with
  | some s => if s = "" then b else some s
  | none => b

/-- Team resolution shared by `hierarchy` and `search`
(src/index.ts:279-280, 327-328):

  const teamId = team || DEFAULT_TEAM;
  if (!teamId) throw new Error("team required (or set CLICKUP_TEAM_ID)");

Returns the resolved truthy identifier, or `none` when the handler throws. -/
def resolveTeam (team defaultTeam : Option String) : Option String :=
  match jsOrElse team defaultTeam with
  | some s => if s = "" then none else some s
  | none => none

/-! Upstream payload types (the TS interfaces at src/index.ts:222-248). A
field the handler guards with `?.` or `|| []` is modelled as `Option`, since
the guard exists exactly because upstream may omit it. -/

/-- Interface `Space` (src/index.ts:222-225). -/
structure Space where
  id : String
  name : String

/-- Interface `List` (src/index.ts:231-234); renamed because `List` is Lean's
list type. -/
structure ListItem where
  id : String
  name : String

/-- Interface `Folder` (src/index.ts:226-230); the handler reads
`f.lists || []`. -/
structure Folder where
  id : String
  name : String
  lists : Option (List ListItem)

/-- Interface `Member` (src/index.ts:235-237): `{ user: { id, username,
email } }`. -/
structure UserInfo where
  id : Int
  username : String
  email : String

structure Member where
  user : UserInfo

/-- Field `status?: { status: string }` on a task. -/
structure StatusRef where
  status : String

/-- Field `priority?: { priority: string }` on a task. -/
structure PriorityRef where
  priority : String

/-- Field `tags?: { name: string }[]` entries on a task. -/
structure TagRef where
  name : String

/-- Field `assignees?: { id: number; username: string }[]` entries on a task. -/
structure Assignee where
  id : Int
  username : String

/-- Interface `Task` (src/index.ts:238-248). `due_date` is a decimal string
when set; `none` covers both an absent and a `null` field. -/
structure Task where
  id : String
  name : String
  description : Option String
  status : Option StatusRef
  priority : Option PriorityRef
  tags : Option (List TagRef)
  assignees : Option (List Assignee)
  due_date : Option String
  url : String

/-- Payload `{ team: { members: Member[] } }`, as read defensively by
`teamInfo.team?.members || []` (src/index.ts:306). -/
structure TeamData where
  members : Option (List Member)

structure TeamInfo where
  team : Option TeamData

/-- Payload `{ spaces: Space[] }`, read via `spacesRes.spaces || []`. -/
structure SpacesRes where
  spaces : Option (List Space)

/-- Payload `{ folders: Folder[] }`, read via `foldersRes.folders || []`. -/
structure FoldersRes where
  folders : Option (List Folder)

/-- Payload `{ lists: List[] }`, read via `listsRes.lists || []`. -/
structure ListsRes where
  lists : Option (List ListItem)

/-- Payload `{ tasks: Task[] }`, read via `res.tasks || []`. -/
structure TasksRes where
  tasks : Option (List Task)

/-! Shaped (output) types of the hierarchy tool. Every field of these records
is always present in the serialized output, so they are modelled as plain
structures rather than `Json`. -/

structure ListOut where
  id : String
  name : String

structure FolderOut where
  id : String
  name : String
  lists : List ListOut

structure SpaceOut where
  id : String
  name : String
  folders : List FolderOut
  lists : List ListOut

structure MemberOut where
  id : Int
  name : String
  email : String

structure HierarchyOut where
  spaces : List SpaceOut
  members : List MemberOut

/-- List shaping `(l) => ({ id: l.id, name: l.name })` (src/index.ts:299, 301). -/
def shapeList (l : ListItem) : ListOut :=
  ⟨l.id, l.name⟩

/-- Folder shaping (src/index.ts:296-300): `lists: (f.lists || []).map(...)`. -/
def shapeFolder (f : Folder) : FolderOut :=
  ⟨f.id, f.name, (f.lists.getD []).map shapeList⟩

/-- Per-space record assembly (src/index.ts:293-302), applied once both
per-space fetches have resolved. -/
def shapeSpace (sp : Space) (foldersRes : FoldersRes) (listsRes : ListsRes) :
    SpaceOut :=
  ⟨sp.id, sp.name, (foldersRes.folders.getD []).map shapeFolder,
    (listsRes.lists.getD []).map shapeList⟩

/-- Member shaping (src/index.ts:306-310). -/
def shapeMember (m : Member) : MemberOut :=
  ⟨m.user.id, m.user.username, m.user.email⟩

/-- The four upstream fetches the hierarchy tool issues, as typed oracles
(each stands for `api("GET", ...)` plus the TS cast; the argument is the team
or space id interpolated into the path). -/
structure Upstream where
  teamDetail : String → Except UpstreamError TeamInfo
  teamSpaces : String → Except UpstreamError SpacesRes
  spaceFolders : String → Except UpstreamError FoldersRes
  spaceLists : String → Except UpstreamError ListsRes

/-- The per-space fan-out (src/index.ts:287-304): for each space, fetch its
folders and lists (a `Promise.all` join per space) and assemble the record;
the surrounding `Promise.all` over all spaces rejects as soon as any branch
rejects and otherwise preserves upstream space order. -/
def fetchSpaces (up : Upstream) : List Space → Except UpstreamError (List SpaceOut)
  | [] => .ok []
  | sp :: rest =>
    match up.spaceFolders sp.id with
    | .error e => .error e
    | .ok foldersRes =>
      match up.spaceLists sp.id with
      | .error e => .error e
      | .ok listsRes =>
        match fetchSpaces up rest with
        | .error e => .error e
        | .ok rest' => .ok (shapeSpace sp foldersRes listsRes :: rest')

/-- The hierarchy tool handler (src/index.ts:278-313). -/
def hierarchy (defaultTeam : Option String) (up : Upstream)
    (team : Option String) : Except ToolError HierarchyOut :=
  match resolveTeam team defaultTeam with
  | none => .error (.config teamRequiredMsg)
  | some teamId =>
    match up.teamDetail teamId with
    | .error e => .error (.upstream e)
    | .ok teamInfo =>
      match up.teamSpaces teamId with
      | .error e => .error (.upstream e)
      | .ok spacesRes =>
        match fetchSpaces up (spacesRes.spaces.getD []) with
        | .error e => .error (.upstream e)
        | .ok spaces =>
          .ok ⟨spaces, ((teamInfo.team.bind TeamData.members).getD []).map shapeMember⟩

/-! The search tool (src/index.ts:316-347). -/

/-- The search tool's validated arguments (its zod schema,
src/index.ts:319-325): `q` required, everything else optional. -/
structure SearchArgs where
  q : String
  team : Option String
  assignee : Option Int
  due_before : Option Int
  due_after : Option Int

/-- An optional numeric query parameter appended under JS truthiness:
`if (assignee) params.append("assignees[]", String(assignee))` — the
parameter is appended only when the value is present and non-zero. -/
def numParam (key : String) : Option Int → List (String × String)
  | none => []
  | some n => if n = 0 then [] else [(key, toString n)]

/-- The query parameter list the search tool builds (src/index.ts:330-333):
`query` first, then the three optional filters in source order. -/
def searchParams (a : SearchArgs) : List (String × String) :=
  [("query", a.q)] ++ numParam "assignees[]" a.assignee
    ++ numParam "due_date_lt" a.due_before ++ numParam "due_date_gt" a.due_after

/-- JS `Number(s)` on the decimal strings ClickUp uses for `due_date`. -/
def jsNumber (s : String) : Int :=
  (s.toInt?).getD 0

/-- The `due` output field: `task.due_date ? Number(task.due_date) : null` —
an absent/null/empty `due_date` is falsy and yields an explicit `null`. -/
def dueField (d : Option String) : Json :=
  match d with
  | none => Json.null
  | some s => if s = "" then Json.null else Json.num (jsNumber s)

/-- Assignee shaping `(a) => ({ id: a.id, name: a.username })`. -/
def shapeAssignee (a : Assignee) : Json :=
  Json.obj [("id", .num a.id), ("name", .str a.username)]

/-- The compact task projection built by `search` (src/index.ts:336-343).
A field whose JS value is `undefined` (optional chaining on an absent
upstream field) is dropped by `JSON.stringify` and hence omitted here. -/
def searchTaskProj (t : Task) : Json :=
  Json.obj
    ([("id", .str t.id), ("name", .str t.name)]
      ++ (match t.status with
          | some s => [("status", Json.str s.status)]
          | none => [])
      ++ (match t.assignees with
          | some xs => [("assignees", Json.arr (xs.map shapeAssignee))]
          | none => [])
      ++ [("due", dueField t.due_date), ("url", .str t.url)])

/-- The search tool handler (src/index.ts:326-346). `fetchTasks` stands for
`api("GET", "/team/" + teamId + "/task?" + params)` plus the cast, taking the
resolved team id and the built parameter list. -/
def search (defaultTeam : Option String)
    (fetchTasks : String → List (String × String) → Except UpstreamError TasksRes)
    (a : SearchArgs) : Except ToolError Json :=
  match resolveTeam a.team defaultTeam with
  | none => .error (.config teamRequiredMsg)
  | some teamId =>
    match fetchTasks teamId (searchParams a) with
    | .error e => .error (.upstream e)
    | .ok res =>
      .ok (Json.arr (((res.tasks.getD []).take 20).map searchTaskProj))

/-! The task tool (src/index.ts:350-363). -/

/-- The full task projection returned by the `task` tool
(src/index.ts:352-362). Fields whose JS value is `undefined` — `desc`,
`status`, `priority`, `tags`, `assignees` when the upstream field is absent —
are dropped by `JSON.stringify` and hence omitted from the object. -/
def taskProj (t : Task) : Json :=
  Json.obj
    ([("id", .str t.id), ("name", .str t.name)]
      ++ (match t.description with
          | some d => [("desc", Json.str d)]
          | none => [])
      ++ (match t.status with
          | some s => [("status", Json.str s.status)]
          | none => [])
      ++ (match t.priority with
          | some p => [("priority", Json.str p.priority)]
          | none => [])
      ++ (match t.tags with
          | some ts => [("tags", Json.arr (ts.map (fun x => Json.str x.name)))]
          | none => [])
      ++ (match t.assignees with
          | some xs => [("assignees", Json.arr (xs.map shapeAssignee))]
          | none => [])
      ++ [("due", dueField t.due_date), ("url", .str t.url)])

/-- The task tool handler (src/index.ts:350-363): one fetch by id, then the
full projection. -/
def task (fetchTask : String → Except UpstreamError Task) (id : String) :
    Except ToolError Json :=
  match fetchTask id with
  | .error e => .error (.upstream e)
  | .ok t => .ok (taskProj t)

/-! The update tool (src/index.ts:392-413). -/

/-- The update tool's validated arguments (src/index.ts:395-402). -/
structure UpdateArgs where
  id : String
  name : Option String
  desc : Option String
  status : Option String
  priority : Option Int
  due : Option Int

/-- The request body the update tool assembles (src/index.ts:404-409): each
field is added only when the caller supplied it (`!== undefined`), and a
supplied due date goes through `due || null`, so exactly 0 becomes an
explicit JSON `null`. The keys appear in source insertion order. -/
def updateBody (a : UpdateArgs) : List (String × Json) :=
  (match a.name with
   | some v => [("name", Json.str v)]
   | none => [])
  ++ (match a.desc with
      | some v => [("description", Json.str v)]
      | none => [])
  ++ (match a.status with
      | some v => [("status", Json.str v)]
      | none => [])
  ++ (match a.priority with
      | some v => [("priority", Json.num v)]
      | none => [])
  ++ (match a.due with
      | some v => [("due_date", if v = 0 then Json.null else Json.num v)]
      | none => [])

/-- The update tool handler (src/index.ts:403-412): builds the partial body
and issues one PUT; `fetchPut` stands for `api("PUT", "/task/" + id, body)`
plus the cast to `{ id, url }`. -/
def update (fetchPut : String → List (String × Json) → Except UpstreamError (String × String))
    (a : UpdateArgs) : Except ToolError Json :=
  match fetchPut a.id (updateBody a) with
  | .error e => .error (.upstream e)
  | .ok (i, u) => .ok (Json.obj [("id", .str i), ("url", .str u)])

/-! Theorems. -/

/-- C7: a call through the HTTP client wrapper fails iff the status is
outside 200-299; on failure the error carries the numeric status and the raw
body text; a 204 yields an empty object and every other successful status
yields the parsed JSON body. -/
theorem api_status_contract (oracle : HttpRequest → HttpResponse)
    (m p : String) (b : Option Json) (res : HttpResponse)
    (hres : oracle ⟨m, p, b⟩ = res) :
    (¬ (200 ≤ res.status ∧ res.status ≤ 299) →
        api oracle m p b = .error ⟨res.status, res.bodyText⟩) ∧
    (200 ≤ res.status ∧ res.status ≤ 299 →
        (res.status = 204 → api oracle m p b = .ok (Json.obj [])) ∧
        (res.status ≠ 204 → api oracle m p b = .ok res.bodyJson)) ∧
    (∀ e, api oracle m p b = .error e →
        ¬ (200 ≤ res.status ∧ res.status ≤ 299) ∧
        e = ⟨res.status, res.bodyText⟩) := by
  refine ⟨?_, ?_, ?_⟩
  · intro h
    simp [api, hres, h]
  · intro h
    refine ⟨?_, ?_⟩ <;> intro h204 <;> simp [api, hres, h, h204]
  · intro e he
    by_cases hok : 200 ≤ res.status ∧ res.status ≤ 299
    · exfalso
      simp [api, hres, hok] at he
      split at he <;> cases he
    · refine ⟨hok, ?_⟩
      simp [api, hres, hok] at he
      exact he.symm

/-- C7 witness: a concrete 404 response turns into the structured failure
carrying the status and body text. -/
theorem api_status_contract_witness :
    api (fun _ => ⟨404, "not found", Json.null⟩) "GET" "/task/x" none =
      .error ⟨404, "not found"⟩ :=
  (api_status_contract (fun _ => ⟨404, "not found", Json.null⟩) "GET" "/task/x"
    none ⟨404, "not found", Json.null⟩ rfl).1 (by decide)

/-- C5: the update body contains exactly the caller-supplied fields among
name, description, status, priority and due date — each key is present with
the supplied value iff the argument was supplied, and no other key ever
appears in the body. -/
theorem update_only_supplied_fields (a : UpdateArgs) :
    lookupKey "name" (updateBody a) = a.name.map Json.str ∧
    lookupKey "description" (updateBody a) = a.desc.map Json.str ∧
    lookupKey "status" (updateBody a) = a.status.map Json.str ∧
    lookupKey "priority" (updateBody a) = a.priority.map Json.num ∧
    lookupKey "due_date" (updateBody a) =
      a.due.map (fun v => if v = 0 then Json.null else Json.num v) ∧
    ((updateBody a).map Prod.fst).all
      (fun k => ["name", "description", "status", "priority", "due_date"].contains k) = true := by
  obtain ⟨i, n, d, s, pr, u⟩ := a
  cases n <;> cases d <;> cases s <;> cases pr <;> cases u <;>
    simp [updateBody, lookupKey]

/-- C6: a supplied due value of exactly 0 is transmitted as an explicit JSON
null for `due_date` (the clear-due-date sentinel), while any supplied
non-zero due value is transmitted unchanged. -/
theorem update_due_zero_sentinel (a : UpdateArgs) :
    (a.due = some 0 → lookupKey "due_date" (updateBody a) = some Json.null) ∧
    (∀ v : Int, a.due = some v → v ≠ 0 →
        lookupKey "due_date" (updateBody a) = some (Json.num v)) := by
  obtain ⟨i, n, d, s, pr, u⟩ := a
  constructor
  · intro h
    have hu : u = some 0 := h
    subst hu
    cases n <;> cases d <;> cases s <;> cases pr <;>
      simp [updateBody, lookupKey]
  · intro v hv hv0
    have hu : u = some v := hv
    subst hu
    cases n <;> cases d <;> cases s <;> cases pr <;>
      simp [updateBody, lookupKey, hv0]

/-- C6 witness: with only due supplied, due = 0 transmits null and due = 5
transmits 5. -/
theorem update_due_zero_sentinel_witness :
    lookupKey "due_date" (updateBody ⟨"t1", none, none, none, none, some 0⟩) =
      some Json.null ∧
    lookupKey "due_date" (updateBody ⟨"t1", none, none, none, none, some 5⟩) =
      some (Json.num 5) :=
  ⟨(update_due_zero_sentinel ⟨"t1", none, none, none, none, some 0⟩).1 rfl,
   (update_due_zero_sentinel ⟨"t1", none, none, none, none, some 5⟩).2 5 rfl
     (by decide)⟩

/-- C10: supplying 0 for the assignee, due_before or due_after filter builds
the same query parameter list — and hence the same upstream request and the
same search result — as omitting the filter entirely. -/
theorem search_zero_filters_omitted (q : String) (team : Option String)
    (assignee db da : Option Int) (defaultTeam : Option String)
    (fetchTasks : String → List (String × String) → Except UpstreamError TasksRes) :
    searchParams ⟨q, team, some 0, db, da⟩ = searchParams ⟨q, team, none, db, da⟩ ∧
    searchParams ⟨q, team, assignee, some 0, da⟩ = searchParams ⟨q, team, assignee, none, da⟩ ∧
    searchParams ⟨q, team, assignee, db, some 0⟩ = searchParams ⟨q, team, assignee, db, none⟩ ∧
    search defaultTeam fetchTasks ⟨q, team, some 0, db, da⟩ =
      search defaultTeam fetchTasks ⟨q, team, none, db, da⟩ ∧
    search defaultTeam fetchTasks ⟨q, team, assignee, some 0, da⟩ =
      search defaultTeam fetchTasks ⟨q, team, assignee, none, da⟩ ∧
    search defaultTeam fetchTasks ⟨q, team, assignee, db, some 0⟩ =
      search defaultTeam fetchTasks ⟨q, team, assignee, db, none⟩ := by
  have h1 : searchParams ⟨q, team, some 0, db, da⟩ = searchParams ⟨q, team, none, db, da⟩ := by
    simp [searchParams, numParam]
  have h2 : searchParams ⟨q, team, assignee, some 0, da⟩ = searchParams ⟨q, team, assignee, none, da⟩ := by
    simp [searchParams, numParam]
  have h3 : searchParams ⟨q, team, assignee, db, some 0⟩ = searchParams ⟨q, team, assignee, db, none⟩ := by
    simp [searchParams, numParam]
  refine ⟨h1, h2, h3, ?_, ?_, ?_⟩ <;>
    cases hrt : resolveTeam team defaultTeam <;>
      simp [search, hrt, h1, h2, h3]

/-- C2: a successful search returns exactly the projection of the first-20
prefix of the upstream task list, so its result array never holds more than
20 entries. -/
theorem search_at_most_20 (defaultTeam : Option String)
    (fetchTasks : String → List (String × String) → Except UpstreamError TasksRes)
    (a : SearchArgs) (teamId : String) (res : TasksRes)
    (ht : resolveTeam a.team defaultTeam = some teamId)
    (hres : fetchTasks teamId (searchParams a) = .ok res) :
    search defaultTeam fetchTasks a =
      .ok (Json.arr (((res.tasks.getD []).take 20).map searchTaskProj)) ∧
    ∀ l, search defaultTeam fetchTasks a = .ok (Json.arr l) → l.length ≤ 20 := by
  have h1 : search defaultTeam fetchTasks a =
      .ok (Json.arr (((res.tasks.getD []).take 20).map searchTaskProj)) := by
    simp [search, ht, hres]
  refine ⟨h1, ?_⟩
  intro l hl
  rw [h1] at hl
  have harr : Json.arr (((res.tasks.getD []).take 20).map searchTaskProj) = Json.arr l :=
    by injection hl
  have hll : ((res.tasks.getD []).take 20).map searchTaskProj = l := by
    injection harr
  rw [← hll]
  simp [List.length_take]

/-- C2 witness: with 25 upstream matches, the search result holds 20 tasks. -/
theorem search_at_most_20_witness :
    search (some "T")
      (fun _ _ => .ok ⟨some (List.replicate 25 ⟨"t", "n", none, none, none, none, none, none, "u"⟩)⟩)
      ⟨"bug", none, none, none, none⟩ =
      .ok (Json.arr ((List.replicate 25
        (⟨"t", "n", none, none, none, none, none, none, "u"⟩ : Task)
        |>.take 20).map searchTaskProj)) ∧
    ∀ l, search (some "T")
      (fun _ _ => .ok ⟨some (List.replicate 25 ⟨"t", "n", none, none, none, none, none, none, "u"⟩)⟩)
      ⟨"bug", none, none, none, none⟩ = .ok (Json.arr l) → l.length ≤ 20 :=
  search_at_most_20 (some "T")
    (fun _ _ => .ok ⟨some (List.replicate 25 ⟨"t", "n", none, none, none, none, none, none, "u"⟩)⟩)
    ⟨"bug", none, none, none, none⟩ "T"
    ⟨some (List.replicate 25 ⟨"t", "n", none, none, none, none, none, none, "u"⟩)⟩
    rfl rfl

/-- C3: a task with no due date set upstream projects to an output whose due
field is present and exactly null, in both the search projection and the task
tool projection. -/
theorem due_null_when_unset (t : Task) (h : t.due_date = none) :
    Json.lookup "due" (searchTaskProj t) = some Json.null ∧
    Json.lookup "due" (taskProj t) = some Json.null := by
  obtain ⟨i, n, d, s, pr, tg, asg, dd, u⟩ := t
  have hdd : dd = none := h
  subst hdd
  cases d <;> cases s <;> cases pr <;> cases tg <;> cases asg <;>
    simp [searchTaskProj, taskProj, dueField, Json.lookup, lookupKey]

/-- C3 witness: a concrete task with every optional field absent has
due = null in both projections. -/
theorem due_null_when_unset_witness :
    Json.lookup "due"
      (searchTaskProj ⟨"t1", "N", none, none, none, none, none, none, "u"⟩) =
      some Json.null ∧
    Json.lookup "due"
      (taskProj ⟨"t1", "N", none, none, none, none, none, none, "u"⟩) =
      some Json.null :=
  due_null_when_unset ⟨"t1", "N", none, none, none, none, none, none, "u"⟩ rfl

/-- C4: the caller-supplied team identifier (when truthy) takes precedence
over the process-wide default, and when neither resolves, both `hierarchy`
and `search` fail with the configuration error — for every upstream oracle,
so no upstream call is consulted. -/
theorem team_resolution (up : Upstream)
    (fetchTasks : String → List (String × String) → Except UpstreamError TasksRes) :
    (∀ (s : String) (defaultTeam : Option String), s ≠ "" →
        resolveTeam (some s) defaultTeam = some s) ∧
    (∀ defaultTeam team, resolveTeam team defaultTeam = none →
        hierarchy defaultTeam up team = .error (.config teamRequiredMsg) ∧
        ∀ q assignee db da,
          search defaultTeam fetchTasks ⟨q, team, assignee, db, da⟩ =
            .error (.config teamRequiredMsg)) := by
  constructor
  · intro s d hs
    simp [resolveTeam, jsOrElse, hs]
  · intro d team h
    constructor
    · simp [hierarchy, h]
    · intro q assignee db da
      simp [search, h]

/-- C4 witness: a truthy caller value overrides a different default, and with
neither supplied the tools fail with the configuration error against an
oracle that would answer every request. -/
theorem team_resolution_witness :
    resolveTeam (some "T1") (some "T2") = some "T1" ∧
    hierarchy none
      ⟨fun _ => .ok ⟨some ⟨some []⟩⟩, fun _ => .ok ⟨some []⟩,
       fun _ => .ok ⟨some []⟩, fun _ => .ok ⟨some []⟩⟩ none =
      .error (.config teamRequiredMsg) ∧
    search none (fun _ _ => .ok ⟨some []⟩) ⟨"q", none, none, none, none⟩ =
      .error (.config teamRequiredMsg) :=
  ⟨(team_resolution
      ⟨fun _ => .ok ⟨some ⟨some []⟩⟩, fun _ => .ok ⟨some []⟩,
       fun _ => .ok ⟨some []⟩, fun _ => .ok ⟨some []⟩⟩
      (fun _ _ => .ok ⟨some []⟩)).1 "T1" (some "T2") (by decide),
   ((team_resolution
      ⟨fun _ => .ok ⟨some ⟨some []⟩⟩, fun _ => .ok ⟨some []⟩,
       fun _ => .ok ⟨some []⟩, fun _ => .ok ⟨some []⟩⟩
      (fun _ _ => .ok ⟨some []⟩)).2 none none rfl).1,
   ((team_resolution
      ⟨fun _ => .ok ⟨some ⟨some []⟩⟩, fun _ => .ok ⟨some []⟩,
       fun _ => .ok ⟨some []⟩, fun _ => .ok ⟨some []⟩⟩
      (fun _ _ => .ok ⟨some []⟩)).2 none none rfl).2 "q" none none none⟩

/-- If the folder fetch or the list fetch of any space in the batch fails,
the whole per-space fan-out fails. -/
theorem fetchSpaces_error_of_mem (up : Upstream) (l : List Space) (sp : Space)
    (hm : sp ∈ l)
    (hf : (∃ e, up.spaceFolders sp.id = .error e) ∨
      ∃ e, up.spaceLists sp.id = .error e) :
    ∃ e', fetchSpaces up l = .error e' := by
  induction l with
  | nil => cases hm
  | cons hd tl ih =>
    cases hm with
    | head =>
      rcases hf with ⟨e, he⟩ | ⟨e, he⟩
      · exact ⟨e, by simp [fetchSpaces, he]⟩
      · cases hfo : up.spaceFolders sp.id with
        | error e' => exact ⟨e', by simp [fetchSpaces, hfo]⟩
        | ok fr => exact ⟨e, by simp [fetchSpaces, hfo, he]⟩
    | tail _ hm' =>
      cases hfo : up.spaceFolders hd.id with
      | error e' => exact ⟨e', by simp [fetchSpaces, hfo]⟩
      | ok fr =>
        cases hlo : up.spaceLists hd.id with
        | error e' => exact ⟨e', by simp [fetchSpaces, hfo, hlo]⟩
        | ok lr =>
          obtain ⟨e', he'⟩ := ih hm'
          exact ⟨e', by simp [fetchSpaces, hfo, hlo, he']⟩

/-- A successful per-space fan-out consumed every space: each space's folder
and list fetch succeeded and the batch yields one record per space. -/
theorem fetchSpaces_ok_sound (up : Upstream) (l : List Space)
    (out : List SpaceOut) (h : fetchSpaces up l = .ok out) :
    out.length = l.length ∧
    ∀ sp ∈ l, (∃ fr, up.spaceFolders sp.id = .ok fr) ∧
      ∃ lr, up.spaceLists sp.id = .ok lr := by
  induction l generalizing out with
  | nil =>
    simp [fetchSpaces] at h
    subst h
    simp
  | cons hd tl ih =>
    cases hfo : up.spaceFolders hd.id with
    | error e => simp [fetchSpaces, hfo] at h
    | ok fr =>
      cases hlo : up.spaceLists hd.id with
      | error e => simp [fetchSpaces, hfo, hlo] at h
      | ok lr =>
        cases hrest : fetchSpaces up tl with
        | error e => simp [fetchSpaces, hfo, hlo, hrest] at h
        | ok rest' =>
          have hout : out = shapeSpace hd fr lr :: rest' := by
            simp [fetchSpaces, hfo, hlo, hrest] at h
            exact h.symm
          obtain ⟨hlen, hall⟩ := ih rest' hrest
          subst hout
          refine ⟨by simp [hlen], ?_⟩
          intro sp hsp
          cases hsp with
          | head => exact ⟨⟨fr, hfo⟩, lr, hlo⟩
          | tail _ hsp' => exact hall sp hsp'

/-- C1: the hierarchy aggregation is all-or-nothing. A successful invocation
implies the team-detail fetch, the spaces fetch, and every space's folder and
list fetch succeeded (and no space is dropped); conversely, a failing folder
fetch for any one space in the fetched batch makes the whole call fail. -/
theorem hierarchy_all_or_nothing (defaultTeam team : Option String)
    (up : Upstream) (teamId : String)
    (ht : resolveTeam team defaultTeam = some teamId) :
    (∀ out, hierarchy defaultTeam up team = .ok out →
        (∃ ti, up.teamDetail teamId = .ok ti) ∧
        ∃ sr, up.teamSpaces teamId = .ok sr ∧
          out.spaces.length = (sr.spaces.getD []).length ∧
          ∀ sp ∈ sr.spaces.getD [],
            (∃ fr, up.spaceFolders sp.id = .ok fr) ∧
            ∃ lr, up.spaceLists sp.id = .ok lr) ∧
    (∀ sr sp e, up.teamSpaces teamId = .ok sr → sp ∈ sr.spaces.getD [] →
        up.spaceFolders sp.id = .error e →
        ∃ e', hierarchy defaultTeam up team = .error e') := by
  constructor
  · intro out hout
    cases hti : up.teamDetail teamId with
    | error e => simp [hierarchy, ht, hti] at hout
    | ok ti =>
      cases hsr : up.teamSpaces teamId with
      | error e => simp [hierarchy, ht, hti, hsr] at hout
      | ok sr =>
        cases hfs : fetchSpaces up (sr.spaces.getD []) with
        | error e => simp [hierarchy, ht, hti, hsr, hfs] at hout
        | ok spaces =>
          have hout' : out = ⟨spaces,
              ((ti.team.bind TeamData.members).getD []).map shapeMember⟩ := by
            simp [hierarchy, ht, hti, hsr, hfs] at hout
            exact hout.symm
          obtain ⟨hlen, hall⟩ := fetchSpaces_ok_sound up (sr.spaces.getD []) spaces hfs
          subst hout'
          exact ⟨⟨ti, rfl⟩, sr, rfl, hlen, hall⟩
  · intro sr sp e hsr hsp hfe
    cases hti : up.teamDetail teamId with
    | error e' => exact ⟨.upstream e', by simp [hierarchy, ht, hti]⟩
    | ok ti =>
      obtain ⟨e', he'⟩ :=
        fetchSpaces_error_of_mem up (sr.spaces.getD []) sp hsp (.inl ⟨e, hfe⟩)
      exact ⟨.upstream e', by simp [hierarchy, ht, hti, hsr, he']⟩

/-- C1 witness: with two upstream spaces of which exactly one has a failing
folder fetch (every other call succeeds), the whole hierarchy call fails. -/
theorem hierarchy_all_or_nothing_witness :
    ∃ e', hierarchy (some "T")
      ⟨fun _ => .ok ⟨some ⟨some []⟩⟩,
       fun _ => .ok ⟨some [⟨"S1", "One"⟩, ⟨"S2", "Two"⟩]⟩,
       fun sid => if sid = "S2" then .error ⟨500, "boom"⟩ else .ok ⟨some []⟩,
       fun _ => .ok ⟨some []⟩⟩ none = .error e' :=
  (hierarchy_all_or_nothing (some "T") none
    ⟨fun _ => .ok ⟨some ⟨some []⟩⟩,
     fun _ => .ok ⟨some [⟨"S1", "One"⟩, ⟨"S2", "Two"⟩]⟩,
     fun sid => if sid = "S2" then .error ⟨500, "boom"⟩ else .ok ⟨some []⟩,
     fun _ => .ok ⟨some []⟩⟩ "T" rfl).2
    ⟨some [⟨"S1", "One"⟩, ⟨"S2", "Two"⟩]⟩ ⟨"S2", "Two"⟩ ⟨500, "boom"⟩ rfl
    (by simp) (by simp)

/-- C8: a team whose spaces fetch yields zero spaces succeeds with an empty
spaces array and the members shaped from the team-detail response. -/
theorem hierarchy_zero_spaces (defaultTeam team : Option String)
    (up : Upstream) (teamId : String) (ti : TeamInfo) (sr : SpacesRes)
    (ht : resolveTeam team defaultTeam = some teamId)
    (hti : up.teamDetail teamId = .ok ti)
    (hsr : up.teamSpaces teamId = .ok sr)
    (hz : sr.spaces.getD [] = []) :
    hierarchy defaultTeam up team =
      .ok ⟨[], ((ti.team.bind TeamData.members).getD []).map shapeMember⟩ := by
  simp [hierarchy, ht, hti, hsr, hz, fetchSpaces]

/-- C8 witness: zero spaces with one team member yields spaces = [] and a
non-empty members list. -/
theorem hierarchy_zero_spaces_witness :
    hierarchy (some "T")
      ⟨fun _ => .ok ⟨some ⟨some [⟨⟨7, "alice", "a@x.io"⟩⟩]⟩⟩,
       fun _ => .ok ⟨some []⟩, fun _ => .ok ⟨some []⟩, fun _ => .ok ⟨some []⟩⟩
      none = .ok ⟨[], [⟨7, "alice", "a@x.io"⟩]⟩ :=
  hierarchy_zero_spaces (some "T") none
    ⟨fun _ => .ok ⟨some ⟨some [⟨⟨7, "alice", "a@x.io"⟩⟩]⟩⟩,
     fun _ => .ok ⟨some []⟩, fun _ => .ok ⟨some []⟩, fun _ => .ok ⟨some []⟩⟩
    "T" ⟨some ⟨some [⟨⟨7, "alice", "a@x.io"⟩⟩]⟩⟩ ⟨some []⟩ rfl rfl rfl rfl

/-- C9 counterexample: for a concrete upstream task with no tags field and no
assignees field, the task tool's output has no tags key and no assignees key
at all — in particular neither is an empty array, contradicting the claim
that absent collections always shape to empty sequences. -/
theorem taskProj_absent_collections_counterexample :
    Json.lookup "tags"
      (taskProj ⟨"t1", "N", none, none, none, none, none, none, "u"⟩) = none ∧
    Json.lookup "assignees"
      (taskProj ⟨"t1", "N", none, none, none, none, none, none, "u"⟩) = none ∧
    Json.lookup "tags"
      (taskProj ⟨"t1", "N", none, none, none, none, none, none, "u"⟩) ≠
      some (Json.arr []) ∧
    Json.lookup "assignees"
      (taskProj ⟨"t1", "N", none, none, none, none, none, none, "u"⟩) ≠
      some (Json.arr []) :=
  ⟨rfl, rfl, fun h => Option.noConfusion h, fun h => Option.noConfusion h⟩

/-- C9 (amended): the hierarchy shaping helpers map absent upstream folder
and list collections to empty sequences without error, while the task
projection omits the tags and assignees keys entirely (still without error)
when those upstream fields are absent. -/
theorem shaping_absent_collections (t : Task) (htags : t.tags = none)
    (hasg : t.assignees = none) (sp : Space) (f : Folder)
    (hfl : f.lists = none) (fr : FoldersRes) (hfr : fr.folders = none)
    (lr : ListsRes) (hlr : lr.lists = none) :
    Json.lookup "tags" (taskProj t) = none ∧
    Json.lookup "assignees" (taskProj t) = none ∧
    (shapeSpace sp fr lr).folders = [] ∧
    (shapeSpace sp fr lr).lists = [] ∧
    (shapeFolder f).lists = [] := by
  obtain ⟨i, n, d, s, pr, tg, asg, dd, u⟩ := t
  have htg : tg = none := htags
  have hag : asg = none := hasg
  subst htg
  subst hag
  refine ⟨?_, ?_, ?_, ?_, ?_⟩
  · cases d <;> cases s <;> cases pr <;>
      simp [taskProj, Json.lookup, lookupKey]
  · cases d <;> cases s <;> cases pr <;>
      simp [taskProj, Json.lookup, lookupKey]
  · simp [shapeSpace, hfr]
  · simp [shapeSpace, hlr]
  · simp [shapeFolder, hfl]

/-- C9 (amended) witness: concrete task, space, folder and responses with the
collections absent. -/
theorem shaping_absent_collections_witness :
    Json.lookup "tags"
      (taskProj ⟨"t2", "M", none, none, none, none, none, none, "u2"⟩) = none ∧
    Json.lookup "assignees"
      (taskProj ⟨"t2", "M", none, none, none, none, none, none, "u2"⟩) = none ∧
    (shapeSpace ⟨"S", "Sp"⟩ ⟨none⟩ ⟨none⟩).folders = [] ∧
    (shapeSpace ⟨"S", "Sp"⟩ ⟨none⟩ ⟨none⟩).lists = [] ∧
    (shapeFolder ⟨"F", "Fo", none⟩).lists = [] :=
  shaping_absent_collections
    ⟨"t2", "M", none, none, none, none, none, none, "u2"⟩ rfl rfl
    ⟨"S", "Sp"⟩ ⟨"F", "Fo", none⟩ rfl ⟨none⟩ rfl ⟨none⟩ rfl

end ClickUp
